import Mathlib

/-!
# Shallow embedding of the drag-and-drop grid widget

Embeds `src/app/app.component.ts` (the only source file): the coordinate
caches, the box-intersection index resolution, and the drop reconciliation
of the `AppComponent` drag-and-drop widget.

Conventions:
* JavaScript numbers are modelled by `JsNum := Option ℚ`: `some q` is the
  finite value `q` (every finite value this program computes is rational),
  `none` is a non-finite IEEE value (`Infinity`, `-Infinity` or `NaN`).
* The id-keyed coordinate maps are modelled as lists of boxes in track
  order: the ids are opaque uuids fixed at construction and the maps hold
  exactly the boxes of those ids after a refresh.
* A thrown JavaScript exception is modelled by `Except.error` carrying the
  component state at the moment of the throw.
-/

/-- A JavaScript number as this program uses it: `some q` is a finite
value, `none` a non-finite one (`Infinity`, `-Infinity` or `NaN`). -/
abbrev JsNum := Option ℚ

/-- JavaScript `+`: exact on finite operands; any non-finite operand makes
the result non-finite (`Infinity + x`, `NaN + x` are never finite). -/
def jadd : JsNum → JsNum → JsNum
  | some a, some b => some (a + b)
  | _, _ => none

/-- JavaScript `-`: exact on finite operands; any non-finite operand makes
the result non-finite (`Infinity - Infinity = NaN`, `Infinity - x = Infinity`,
`NaN - x = NaN`). -/
def jsub : JsNum → JsNum → JsNum
  | some a, some b => some (a - b)
  | _, _ => none

/-- JavaScript `*`: exact on finite operands; any non-finite operand makes
the result non-finite in this program (`x * NaN = NaN`, `x * Infinity` is
`±Infinity` or `NaN`). -/
def jmul : JsNum → JsNum → JsNum
  | some a, some b => some (a * b)
  | _, _ => none

/-- JavaScript `/`: finite division by zero is `±Infinity` or `NaN`, hence
non-finite. A non-finite divisor only arises in this program as the `NaN`
of `rowEnd - rowStart` after both fields were contaminated together, and
`x / NaN = NaN`, so mapping it to `none` is exact (the finite
`x / Infinity = 0` case never occurs). -/
def jdiv : JsNum → JsNum → JsNum
  | some a, some b => if b = 0 then none else some (a / b)
  | _, _ => none

/-- JavaScript `<=` as the box-overlap test uses it. A comparison with a
non-finite operand is modelled as `false`: exact for `NaN`; for `±Infinity`
(which only ever occurs in both vertical coordinates of a degenerate probe
box at once) the overlap verdict built from the conjunction below agrees
with the IEEE one even though one conjunct alone may differ. -/
def jle (a b : JsNum) : Bool :=
  match a, b with
  | some a, some b => decide (a ≤ b)
  | _, _ => false

/-- A bounding box as the program stores it: the `number[]`
`[left, top, right, bottom]` of `getBoundingClientRect`. -/
structure Box where
  left : JsNum
  top : JsNum
  right : JsNum
  bottom : JsNum
deriving DecidableEq, Repr, Inhabited

/-- A box with four finite coordinates. -/
def mkBox (l t r b : ℚ) : Box := ⟨some l, some t, some r, some b⟩

/-- Modelled from the spec: the closed-interval overlap test of the external
`box-intersect` library (a dependency, not part of this repository's
sources). Two axis-aligned boxes overlap when their coordinate intervals
intersect on both axes; the intervals are closed, so boxes touching at a
shared boundary overlap (spec §4.2: a probe on the boundary between
adjacent tracks "may overlap more than one track box"). -/
def boxesOverlap (a b : Box) : Bool :=
  jle a.left b.right && jle b.left a.right && jle a.top b.bottom && jle b.top a.bottom

/-- Modelled from the spec: `boxIntersect(boxes)` of the external
`box-intersect` library reports, for every pair of distinct list positions
whose boxes spatially overlap, the pair of positions involved (spec §4.2).
The library emits the pairs in an unspecified order; this model emits them
lexicographically, which the caller cannot observe (it only filters,
flattens and takes a minimum). -/
def boxIntersect (boxes : List Box) : List (List ℕ) :=
  (List.range boxes.length).flatMap (fun i =>
    (List.range boxes.length).filterMap (fun j =>
      if i < j ∧ boxesOverlap (boxes.getD i default) (boxes.getD j default) then
        some [i, j]
      else none))

/-- `createCoordsArray` (app.component.ts:127-129): prepends the placeholder
box `[0, 0, 0, 0]` to the cached track boxes. The source maps each id of
`idArray` through `coordsMap.get`; the cache is modelled directly as the
list of boxes in track order. -/
def createCoordsArray (coords : List Box) : List Box :=
  mkBox 0 0 0 0 :: coords

/-- JavaScript `arr[0] = v` (app.component.ts:166): replaces position 0. -/
def setHead (arr : List Box) (v : Box) : List Box :=
  match arr with
  | [] => [v]
  | _ :: t => v :: t

/-- `intersectArrayIndex` (app.component.ts:131-137):
`Math.min(...boxIntersect(coordsArray)
   .filter(x => x.find(y => y === 0) !== void 0)
   .reduce((acc, x) => acc.concat(x), [])
   .filter(x => x !== 0))`.
Keeps the reported pairs that involve list position 0 (the probe), flattens
them, drops the `0`s and takes the minimum. `Math.min()` of an empty spread
is `Infinity` — no valid index — modelled as `none`. -/
def intersectArrayIndex (coordsArray : List Box) : Option ℕ :=
  ((((boxIntersect coordsArray).filter
        (fun x => (x.find? (fun y => y == 0)).isSome)).foldl
      (fun acc x => acc ++ x) []).filter (fun x => x != 0)).min?

/-- The mutable grid index record (app.component.ts:42-47). -/
structure GridIndex where
  rowStart : JsNum
  rowEnd : JsNum
  columnStart : JsNum
  columnEnd : JsNum
deriving DecidableEq, Repr

/-- The component state touched by the drag-drop logic. `rowsCoords` /
`colsCoords` are the contents of `rowsCoordsMap` / `colsCoordsMap` in track
order (see `createCoordsArray`); `frameRequested` and `resizeConnected`
model the two held registrations: the pending `requestAnimationFrame`
callback and the `ResizeObserver` observation. -/
structure WidgetState where
  dragEnded : Bool
  pos : JsNum × JsNum
  index : GridIndex
  readyToAnimation : Bool
  rowsCoords : List Box
  colsCoords : List Box
  frameRequested : Bool
  resizeConnected : Bool
deriving DecidableEq, Repr

/-- Result of `calcCenter`: the destructured `{ left, top, center }` where
`center` is the 4-array `[h, v, h, v]`, i.e. the degenerate probe box. -/
structure CenterResult where
  left : JsNum
  top : JsNum
  center : Box
deriving DecidableEq, Repr

/-- `calcCenter` (app.component.ts:109-125):
`rowSpan = index.rowEnd - index.rowStart`;
`horizontalCenter = (left + right) * .5 + pos.x`;
`verticalCenter = (bottom - top) / rowSpan * .5 + top + pos.y`;
returns `{ left, top, center: [h, v, h, v] }`. -/
def calcCenter (st : WidgetState) (el : Box) : CenterResult :=
  let rowSpan := jsub st.index.rowEnd st.index.rowStart
  let horizontalCenter := jadd (jmul (jadd el.left el.right) (some (1/2))) st.pos.1
  let verticalCenter :=
    jadd (jadd (jmul (jdiv (jsub el.bottom el.top) rowSpan) (some (1/2))) el.top) st.pos.2
  { left := el.left, top := el.top,
    center := ⟨horizontalCenter, verticalCenter, horizontalCenter, verticalCenter⟩ }

/-- `updateRowIndex` (app.component.ts:174-179): resolves the row index,
then mutates `index.rowEnd += next - index.rowStart` and
`index.rowStart = next`, returning the resolved value (`none` = `Infinity`,
the probe intersected no row box). -/
def updateRowIndex (st : WidgetState) (rowsAxisCoords : List Box) :
    WidgetState × Option ℕ :=
  let nextRowStartIndex := intersectArrayIndex rowsAxisCoords
  let nfi : JsNum := nextRowStartIndex.map (fun n => (n : ℚ))
  let idx := st.index
  let idx' := { idx with
    rowEnd := jadd idx.rowEnd (jsub nfi idx.rowStart),
    rowStart := nfi }
  ({ st with index := idx' }, nextRowStartIndex)

/-- `updateColIndex` (app.component.ts:181-186): the column counterpart of
`updateRowIndex`. -/
def updateColIndex (st : WidgetState) (colsAxisCoords : List Box) :
    WidgetState × Option ℕ :=
  let nextColStartIndex := intersectArrayIndex colsAxisCoords
  let nfi : JsNum := nextColStartIndex.map (fun n => (n : ℚ))
  let idx := st.index
  let idx' := { idx with
    columnEnd := jadd idx.columnEnd (jsub nfi idx.columnStart),
    columnStart := nfi }
  ({ st with index := idx' }, nextColStartIndex)

/-- `updateIndices` (app.component.ts:160-172): builds both axis arrays,
overwrites position 0 of each with the probe
(`rowsAxisCoords[0] = colsAxisCoords[0] = centerCoords`), then updates the
row index first and the column index second (a JavaScript object literal
evaluates its fields in order). -/
def updateIndices (st : WidgetState) (centerCoords : Box) :
    WidgetState × Option ℕ × Option ℕ :=
  let rowsAxisCoords := setHead (createCoordsArray st.rowsCoords) centerCoords
  let colsAxisCoords := setHead (createCoordsArray st.colsCoords) centerCoords
  let p := updateRowIndex st rowsAxisCoords
  let q := updateColIndex p.1 colsAxisCoords
  (q.1, p.2, q.2)

/-- The `coordsMap.get(ids[i - 1])` composite of `dragDropped`
(app.component.ts:92-95): a non-finite or out-of-range index makes
`ids[i - 1]` be `undefined`, `Map.get(undefined)` return `undefined`, and
indexing into `undefined` throw a `TypeError` — all modelled as `none`. -/
def getTrackBox (coords : List Box) : Option ℕ → Option Box
  | some i => if 1 ≤ i then coords[i - 1]? else none
  | none => none

/-- `dragDropped` (app.component.ts:85-103). `drag.reset()` only touches the
gesture provider's internal transform, not this state. Computes the center,
updates the indices, looks up the target column's `[0]` (left) and target
row's `[1]` (top), and reassigns `pos` and `readyToAnimation`. `.error`
carries the state at the moment the destination lookup throws: the index
already mutated by `updateIndices`, `pos` not yet reassigned. -/
def dragDropped (st : WidgetState) (el : Box) : Except WidgetState WidgetState :=
  let c := calcCenter st el
  let r := updateIndices st c.center
  let st1 := r.1
  match getTrackBox st1.colsCoords r.2.2, getTrackBox st1.rowsCoords r.2.1 with
  | some cbox, some rbox =>
      .ok { st1 with
            pos := (jsub (jadd c.left st1.pos.1) cbox.left,
                    jsub (jadd c.top st1.pos.2) rbox.top),
            readyToAnimation := true }
  | _, _ => .error st1

/-- `dragStarted` (app.component.ts:78-83): resets the widget's offset and
clears the animation-ended flag (`drag.reset()` is the gesture provider's). -/
def dragStarted (st : WidgetState) : WidgetState :=
  { st with pos := (some 0, some 0), dragEnded := false }

/-- `dragMoved` (app.component.ts:105-107): stores the gesture's cumulative
distance. -/
def dragMoved (st : WidgetState) (distance : JsNum × JsNum) : WidgetState :=
  { st with pos := distance }

/-- `animationLoop` (app.component.ts:71-76): re-registers itself via
`window.requestAnimationFrame` unconditionally, then, when
`readyToAnimation` is set, marks `dragEnded` and clears the flag. -/
def animationLoop (st : WidgetState) : WidgetState :=
  let st' := { st with frameRequested := true }
  if !st'.readyToAnimation then st'
  else { st' with dragEnded := true, readyToAnimation := false }

/-- Modelled from the spec: the browser delivering one animation-frame tick
(the `requestAnimationFrame` service is external). If a frame callback is
registered it is consumed and `animationLoop` runs; otherwise nothing
happens. -/
def frameTick (st : WidgetState) : WidgetState :=
  if st.frameRequested then animationLoop { st with frameRequested := false }
  else st

/-- Modelled from the spec: the `ResizeObserver` service delivering a resize
notification (debounce elided — irrelevant to the teardown claim). The
subscribed handler re-measures the column boxes; after `disconnect` no
notifications are delivered. -/
def resizeTick (st : WidgetState) (newCols : List Box) : WidgetState :=
  if st.resizeConnected then { st with colsCoords := newCols } else st

/-- `ngOnDestroy` (app.component.ts:188-190): the entire teardown is
`this.resizeObserver.disconnect()` — the frame-callback registration is
not cancelled and no liveness flag exists. -/
def ngOnDestroy (st : WidgetState) : WidgetState :=
  { st with resizeConnected := false }

/-! ## Specification-side notions used to state the claims -/

/-- JavaScript `<` on numbers, `false` when an operand is non-finite (used
only to state claim hypotheses; the source itself only compares with `<=`
inside the overlap test). -/
def jlt (a b : JsNum) : Bool :=
  match a, b with
  | some a, some b => decide (a < b)
  | _, _ => false

/-- The degenerate probe box of a query point: the point repeated as both
corners, `[x, y, x, y]` (spec §3, §4.3 step 2). -/
def probeBox (x y : ℚ) : Box := ⟨some x, some y, some x, some y⟩

/-- The query point `(x, y)` lies strictly inside box `b`: all four
coordinates finite with `left < x < right` and `top < y < bottom`
(hypothesis of spec §8, first property). -/
def insideStrict (x y : ℚ) (b : Box) : Bool :=
  jlt b.left (some x) && jlt (some x) b.right &&
    jlt b.top (some y) && jlt (some y) b.bottom

/-- The 1-based positions of the cached track boxes the probe overlaps —
the reference value the resolution reduces to (spec §4.2: "the minimum
remaining position"). -/
def overlapPositions (probe : Box) (tracks : List Box) : List ℕ :=
  (List.range tracks.length).filterMap
    (fun t => if boxesOverlap probe (tracks.getD t default) then some (t + 1) else none)

/-! ## Concrete instances (the spec §8 end-to-end example grid) -/

/-- Three row tracks at y-ranges `[0,10]`, `[10,20]`, `[20,30]`
(spec §8 end-to-end example). -/
def rowTracks : List Box := [mkBox 0 0 100 10, mkBox 0 10 100 20, mkBox 0 20 100 30]

/-- Two column tracks at x-ranges `[0,5]`, `[5,15]` (spec §8 example). -/
def colTracks : List Box := [mkBox 0 0 5 30, mkBox 5 0 15 30]

/-- The spec §8 end-to-end state: prior grid index
`{rowStart 1, rowEnd 3, columnStart 1, columnEnd 1}` (row span 2), drag
offset `(0, 11)`, caches holding the example tracks. -/
def demoState : WidgetState := {
  dragEnded := false
  pos := (some 0, some 11)
  index := { rowStart := some 1, rowEnd := some 3, columnStart := some 1, columnEnd := some 1 }
  readyToAnimation := false
  rowsCoords := rowTracks
  colsCoords := colTracks
  frameRequested := true
  resizeConnected := true }

/-- A dragged element with bounding box `[0, 0, 14, 4]`: with `demoState`'s
offset and row span its computed center is `(7, 12)` (spec §8 example). -/
def demoEl : Box := mkBox 0 0 14 4

/-- The state `dragDropped demoState demoEl` produces: the drop resolves to
row 2, column 2, so the index becomes `{2, 4, 2, 2}` and the offset the
snap-back vector `(-5, 1)`. -/
def demoAfter : WidgetState := { demoState with
  pos := (some (-5), some 1)
  index := { rowStart := some 2, rowEnd := some 4, columnStart := some 2, columnEnd := some 2 }
  readyToAnimation := true }

/-- `demoState` with an inverted row span (`rowStart 2 > rowEnd 1`) and the
drag offset `(0, 14)` chosen so the computed center is again `(7, 12)`. -/
def invertedSpanState : WidgetState := { demoState with
  pos := (some 0, some 14)
  index := { rowStart := some 2, rowEnd := some 1, columnStart := some 1, columnEnd := some 1 } }

/-- `demoState` with a zero row span (`rowStart = rowEnd = 1`). -/
def zeroSpanState : WidgetState := { demoState with
  index := { rowStart := some 1, rowEnd := some 1, columnStart := some 1, columnEnd := some 1 } }

/-- A dragged element whose center `(50, 12)` lies inside row 2 but outside
every column track of the example grid. -/
def wideEl : Box := mkBox 43 0 57 4

/-- An element placed so its computed center `(7, 50)` lies below every row
track of the example grid. -/
def outsideEl : Box := mkBox 0 38 14 42

/-- The state `dragDropped invertedSpanState demoEl` produces: resolution
succeeds at (row 2, column 2) although `rowEnd < rowStart`; the span `-1`
is preserved. -/
def invertedAfter : WidgetState := { invertedSpanState with
  pos := (some (-5), some 4)
  index := { rowStart := some 2, rowEnd := some 1, columnStart := some 2, columnEnd := some 2 }
  readyToAnimation := true }

/-- Two row tracks separated by a gap (y-ranges `[0,4]` and `[6,10]`), so
the closed boxes are pairwise disjoint. -/
def gappedTracks : List Box := [mkBox 0 0 10 4, mkBox 0 6 10 10]

/-! ## Helper lemmas -/

lemma jadd_some (a b : ℚ) : jadd (some a) (some b) = some (a + b) := rfl

lemma jsub_some (a b : ℚ) : jsub (some a) (some b) = some (a - b) := rfl

lemma jmul_some (a b : ℚ) : jmul (some a) (some b) = some (a * b) := rfl

lemma jdiv_some (a b : ℚ) :
    jdiv (some a) (some b) = if b = 0 then none else some (a / b) := rfl

lemma jle_eq_true_iff (a b : JsNum) :
    jle a b = true ↔ ∃ p q, a = some p ∧ b = some q ∧ p ≤ q := by
  cases a <;> cases b <;> simp [jle]

lemma jlt_eq_true_iff (a b : JsNum) :
    jlt a b = true ↔ ∃ p q, a = some p ∧ b = some q ∧ p < q := by
  cases a <;> cases b <;> simp [jlt]

lemma boxesOverlap_eq_true_iff (a b : Box) :
    boxesOverlap a b = true ↔
      jle a.left b.right = true ∧ jle b.left a.right = true ∧
      jle a.top b.bottom = true ∧ jle b.top a.bottom = true := by
  simp [boxesOverlap, Bool.and_eq_true, and_assoc]

lemma jle_some_left {x : ℚ} {b : JsNum} :
    jle (some x) b = true ↔ ∃ q, b = some q ∧ x ≤ q := by
  cases b <;> simp [jle]

lemma jle_some_right {x : ℚ} {a : JsNum} :
    jle a (some x) = true ↔ ∃ p, a = some p ∧ p ≤ x := by
  cases a <;> simp [jle]

lemma jlt_some_left {x : ℚ} {b : JsNum} :
    jlt (some x) b = true ↔ ∃ q, b = some q ∧ x < q := by
  cases b <;> simp [jlt]

lemma jlt_some_right {x : ℚ} {a : JsNum} :
    jlt a (some x) = true ↔ ∃ p, a = some p ∧ p < x := by
  cases a <;> simp [jlt]

/-- A query point strictly inside a box overlaps it as a degenerate probe. -/
lemma insideStrict_overlap {x y : ℚ} {b : Box} (h : insideStrict x y b = true) :
    boxesOverlap (probeBox x y) b = true := by
  simp only [insideStrict, Bool.and_eq_true] at h
  obtain ⟨⟨⟨h1, h2⟩, h3⟩, h4⟩ := h
  obtain ⟨l, hl, hlx⟩ := jlt_some_right.mp h1
  obtain ⟨r, hr, hxr⟩ := jlt_some_left.mp h2
  obtain ⟨t, ht, hty⟩ := jlt_some_right.mp h3
  obtain ⟨bb, hb, hyb⟩ := jlt_some_left.mp h4
  rw [boxesOverlap_eq_true_iff]
  refine ⟨?_, ?_, ?_, ?_⟩
  · exact jle_some_left.mpr ⟨r, hr, le_of_lt hxr⟩
  · rw [hl]; exact jle_some_left.mpr ⟨x, rfl, le_of_lt hlx⟩
  · exact jle_some_left.mpr ⟨bb, hb, le_of_lt hyb⟩
  · rw [ht]; exact jle_some_left.mpr ⟨y, rfl, le_of_lt hty⟩

/-- If the point is strictly inside `bk` and its probe overlaps `bt`, the
two track boxes overlap each other. -/
lemma overlap_of_inside_of_probe_overlap {x y : ℚ} {bk bt : Box}
    (hin : insideStrict x y bk = true)
    (hov : boxesOverlap (probeBox x y) bt = true) :
    boxesOverlap bk bt = true := by
  simp only [insideStrict, Bool.and_eq_true] at hin
  obtain ⟨⟨⟨h1, h2⟩, h3⟩, h4⟩ := hin
  obtain ⟨l, hl, hlx⟩ := jlt_some_right.mp h1
  obtain ⟨r, hr, hxr⟩ := jlt_some_left.mp h2
  obtain ⟨t, ht, hty⟩ := jlt_some_right.mp h3
  obtain ⟨bb, hb, hyb⟩ := jlt_some_left.mp h4
  rw [boxesOverlap_eq_true_iff] at hov
  obtain ⟨g1, g2, g3, g4⟩ := hov
  obtain ⟨rt, hrt, hxrt⟩ := jle_some_left.mp g1
  obtain ⟨lt', hlt', hltx⟩ := jle_some_right.mp g2
  obtain ⟨btm, hbtm, hybtm⟩ := jle_some_left.mp g3
  obtain ⟨tt, htt, htty⟩ := jle_some_right.mp g4
  rw [boxesOverlap_eq_true_iff]
  refine ⟨?_, ?_, ?_, ?_⟩
  · rw [hl]; exact jle_some_left.mpr ⟨rt, hrt, le_of_lt (lt_of_lt_of_le hlx hxrt)⟩
  · rw [hlt']; exact jle_some_left.mpr ⟨r, hr, le_of_lt (lt_of_le_of_lt hltx hxr)⟩
  · rw [ht]; exact jle_some_left.mpr ⟨btm, hbtm, le_of_lt (lt_of_lt_of_le hty hybtm)⟩
  · rw [htt]; exact jle_some_left.mpr ⟨bb, hb, le_of_lt (lt_of_le_of_lt htty hyb)⟩

lemma setHead_createCoordsArray (coords : List Box) (probe : Box) :
    setHead (createCoordsArray coords) probe = probe :: coords := rfl

lemma foldl_append_eq_flatten (L : List (List ℕ)) :
    L.foldl (fun acc x => acc ++ x) [] = L.flatten := by
  suffices h : ∀ acc : List ℕ, L.foldl (fun acc x => acc ++ x) acc = acc ++ L.flatten by
    simpa using h []
  induction L with
  | nil => intro acc; simp
  | cons hd tl ih => intro acc; simp [List.foldl_cons, ih, List.append_assoc]

lemma flatMap_range_head {α : Type} (n : ℕ) (f : ℕ → List α)
    (h : ∀ i, i ≠ 0 → f i = []) : (List.range (n + 1)).flatMap f = f 0 := by
  rw [List.range_succ_eq_map, List.flatMap_cons]
  have htail : (List.map Nat.succ (List.range n)).flatMap f = [] := by
    rw [List.flatMap_eq_nil_iff]
    intro i hi
    rw [List.mem_map] at hi
    obtain ⟨i', _, rfl⟩ := hi
    exact h _ (Nat.succ_ne_zero i')
  rw [htail, List.append_nil]

/-- Filtering the reported pairs down to those containing position 0 keeps
exactly the pairs `[0, j]` for probe-overlapping positions `j ≥ 1`. -/
lemma boxIntersect_probe_filter (probe : Box) (tracks : List Box) :
    (boxIntersect (probe :: tracks)).filter
        (fun x => (x.find? (fun y => y == 0)).isSome)
      = (List.range (tracks.length + 1)).filterMap
          (fun j => if 0 < j ∧ boxesOverlap probe ((probe :: tracks).getD j default) then
            some [0, j] else none) := by
  unfold boxIntersect
  rw [List.filter_flatMap]
  simp only [List.length_cons]
  rw [flatMap_range_head]
  · rw [List.filter_filterMap]
    congr 1
    funext j
    simp only [List.getD_cons_zero]
    split
    · next h => simp [Option.filter, List.find?]
    · rfl
  · intro i hi
    rw [List.filter_filterMap, List.filterMap_eq_nil_iff]
    intro j _
    split
    · next h =>
      have hi' : (i == 0) = false := by simpa using hi
      have hj' : (j == 0) = false := by simp; omega
      simp [Option.filter, List.find?, hi', hj']
    · rfl

lemma flatten_filter_pairs (P : ℕ → Prop) [DecidablePred P] (L : List ℕ)
    (hP : ∀ j, P j → j ≠ 0) :
    ((L.filterMap (fun j => if P j then some [0, j] else none)).flatten).filter
        (fun x => x != 0)
      = L.filterMap (fun j => if P j then some j else none) := by
  induction L with
  | nil => rfl
  | cons a l ih =>
    by_cases h : P a
    · have ha : a ≠ 0 := hP a h
      have ha' : (a != 0) = true := by simpa using ha
      simp [List.filterMap_cons, if_pos h, List.flatten_cons, List.filter_append, ih,
        List.filter, ha']
    · simp only [List.filterMap_cons, if_neg h, ih]

/-- Characterization of the intersection resolution: `createCoordsArray`
with the probe written into position 0, followed by `intersectArrayIndex`,
computes the minimum 1-based position of the tracks the probe overlaps
(spec §4.2: "the result is the minimum remaining position"). -/
lemma intersectArrayIndex_probe (probe : Box) (tracks : List Box) :
    intersectArrayIndex (setHead (createCoordsArray tracks) probe)
      = (overlapPositions probe tracks).min? := by
  rw [setHead_createCoordsArray]
  unfold intersectArrayIndex
  rw [boxIntersect_probe_filter, foldl_append_eq_flatten,
    flatten_filter_pairs _ _ (fun j hj => Nat.pos_iff_ne_zero.mp hj.1)]
  congr 1
  rw [List.range_succ_eq_map]
  unfold overlapPositions
  simp only [List.filterMap_cons, List.filterMap_map]
  simp only [Nat.lt_irrefl, false_and, if_false]
  congr 1
  funext t
  simp [Function.comp, Nat.succ_pos]

/-! ## Claim theorems -/

/-- C1: For every sequence of pairwise non-overlapping track boxes ordered
top-to-bottom in the coordinate cache and every query point strictly inside
the box of the track at 0-based list position `k`, the intersection
resolution (`createCoordsArray` with the probe at position 0 followed by
`intersectArrayIndex`) returns the 1-based track index `k + 1`. -/
theorem resolution_returns_strict_interior_track
    (tracks : List Box) (x y : ℚ) (k : ℕ) (hk : k < tracks.length)
    (hdisj : ∀ i, i < tracks.length → ∀ j, j < tracks.length → i ≠ j →
      boxesOverlap (tracks.getD i default) (tracks.getD j default) = false)
    (hord : List.Chain' (fun a b => jle a.bottom b.top = true) tracks)
    (hin : insideStrict x y (tracks.getD k default) = true) :
    intersectArrayIndex (setHead (createCoordsArray tracks) (probeBox x y))
      = some (k + 1) := by
  rw [intersectArrayIndex_probe, List.min?_eq_some_iff']
  constructor
  · unfold overlapPositions
    rw [List.mem_filterMap]
    exact ⟨k, List.mem_range.mpr hk, by rw [if_pos (insideStrict_overlap hin)]⟩
  · intro b hb
    unfold overlapPositions at hb
    rw [List.mem_filterMap] at hb
    obtain ⟨t, ht, hif⟩ := hb
    rw [List.mem_range] at ht
    by_cases hov : boxesOverlap (probeBox x y) (tracks.getD t default) = true
    · rw [if_pos hov] at hif
      cases hif
      rcases eq_or_ne t k with rfl | hne
      · omega
      · exfalso
        have hkt := overlap_of_inside_of_probe_overlap hin hov
        rw [hdisj k hk t ht (Ne.symm hne)] at hkt
        exact Bool.false_ne_true hkt
    · rw [if_neg hov] at hif
      cases hif

/-- C2: For a query point on the shared boundary between the adjacent
tracks at 0-based positions `k` and `k + 1` — so that the degenerate probe
box overlaps both track boxes and no other — the resolution returns the
smaller 1-based index `k + 1`; moreover the result is always the minimum
of the overlapping track positions. -/
theorem resolution_boundary_tie_breaks_to_smaller
    (tracks : List Box) (x y : ℚ) (k : ℕ) (hk1 : k + 1 < tracks.length)
    (hsharedBot : (tracks.getD k default).bottom = some y)
    (hsharedTop : (tracks.getD (k + 1) default).top = some y)
    (hovk : boxesOverlap (probeBox x y) (tracks.getD k default) = true)
    (hovk1 : boxesOverlap (probeBox x y) (tracks.getD (k + 1) default) = true)
    (hothers : ∀ j, j < tracks.length → j ≠ k → j ≠ k + 1 →
      boxesOverlap (probeBox x y) (tracks.getD j default) = false) :
    intersectArrayIndex (setHead (createCoordsArray tracks) (probeBox x y))
      = some (k + 1) ∧
    intersectArrayIndex (setHead (createCoordsArray tracks) (probeBox x y))
      = (overlapPositions (probeBox x y) tracks).min? := by
  refine ⟨?_, intersectArrayIndex_probe _ _⟩
  rw [intersectArrayIndex_probe, List.min?_eq_some_iff']
  constructor
  · unfold overlapPositions
    rw [List.mem_filterMap]
    exact ⟨k, List.mem_range.mpr (by omega), by rw [if_pos hovk]⟩
  · intro b hb
    unfold overlapPositions at hb
    rw [List.mem_filterMap] at hb
    obtain ⟨t, ht, hif⟩ := hb
    rw [List.mem_range] at ht
    by_cases hov : boxesOverlap (probeBox x y) (tracks.getD t default) = true
    · rw [if_pos hov] at hif
      cases hif
      rcases eq_or_ne t k with rfl | hne
      · omega
      rcases eq_or_ne t (k + 1) with rfl | hne1
      · omega
      · exfalso
        rw [hothers t ht hne hne1] at hov
        exact Bool.false_ne_true hov
    · rw [if_neg hov] at hif
      cases hif

/-- Explicit form of `updateIndices`: the returned state carries the
mutated index (row fields updated first, column fields second), and the
returned pair is the two resolution results. -/
lemma updateIndices_eq (st : WidgetState) (center : Box) :
    updateIndices st center =
      ({ st with index := {
          rowStart := (intersectArrayIndex
            (setHead (createCoordsArray st.rowsCoords) center)).map (fun n => (n : ℚ)),
          rowEnd := jadd st.index.rowEnd (jsub ((intersectArrayIndex
            (setHead (createCoordsArray st.rowsCoords) center)).map (fun n => (n : ℚ)))
            st.index.rowStart),
          columnStart := (intersectArrayIndex
            (setHead (createCoordsArray st.colsCoords) center)).map (fun n => (n : ℚ)),
          columnEnd := jadd st.index.columnEnd (jsub ((intersectArrayIndex
            (setHead (createCoordsArray st.colsCoords) center)).map (fun n => (n : ℚ)))
            st.index.columnStart) } },
       intersectArrayIndex (setHead (createCoordsArray st.rowsCoords) center),
       intersectArrayIndex (setHead (createCoordsArray st.colsCoords) center)) := by
  rfl


lemma calcCenter_left (st : WidgetState) (el : Box) :
    (calcCenter st el).left = el.left := rfl

lemma calcCenter_top (st : WidgetState) (el : Box) :
    (calcCenter st el).top = el.top := rfl

/-- When the row resolution fails, the destination lookup throws and the
drop exits exceptionally with the already-mutated state. -/
lemma dragDropped_error_of_row_none (st : WidgetState) (el : Box)
    (hrow : intersectArrayIndex
      (setHead (createCoordsArray st.rowsCoords) (calcCenter st el).center) = none) :
    dragDropped st el =
      Except.error (updateIndices st (calcCenter st el).center).1 := by
  simp only [dragDropped, updateIndices, updateRowIndex, updateColIndex, hrow]
  rcases hc : intersectArrayIndex
    (setHead (createCoordsArray st.colsCoords) (calcCenter st el).center) with _ | c
  · simp [getTrackBox]
  · by_cases h1 : 1 ≤ c
    · rcases hg : st.colsCoords[c - 1]? with _ | cb <;>
        simp [getTrackBox, h1, hg]
    · simp [getTrackBox, h1]

/-- When the column resolution fails, the destination lookup throws and the
drop exits exceptionally with the already-mutated state. -/
lemma dragDropped_error_of_col_none (st : WidgetState) (el : Box)
    (hcol : intersectArrayIndex
      (setHead (createCoordsArray st.colsCoords) (calcCenter st el).center) = none) :
    dragDropped st el =
      Except.error (updateIndices st (calcCenter st el).center).1 := by
  simp only [dragDropped, updateIndices, updateRowIndex, updateColIndex, hcol]
  simp [getTrackBox]

/-- When both resolutions succeed and the resolved 1-based indices are in
cache range, the drop completes: the state carries the mutated index, the
snap-back offset and the raised animation flag. -/
lemma dragDropped_ok (st : WidgetState) (el : Box) (r c : ℕ) (rb cb : Box)
    (hr : intersectArrayIndex
      (setHead (createCoordsArray st.rowsCoords) (calcCenter st el).center) = some r)
    (hc : intersectArrayIndex
      (setHead (createCoordsArray st.colsCoords) (calcCenter st el).center) = some c)
    (h1r : 1 ≤ r) (hrb : st.rowsCoords[r - 1]? = some rb)
    (h1c : 1 ≤ c) (hcb : st.colsCoords[c - 1]? = some cb) :
    dragDropped st el = Except.ok
      { (updateIndices st (calcCenter st el).center).1 with
        pos := (jsub (jadd el.left st.pos.1) cb.left,
                jsub (jadd el.top st.pos.2) rb.top),
        readyToAnimation := true } := by
  simp only [dragDropped, updateIndices, updateRowIndex, updateColIndex, hr, hc]
  simp [getTrackBox, h1r, h1c, hrb, hcb, calcCenter_left, calcCenter_top]

lemma jadd_none_left (x : JsNum) : jadd none x = none := by cases x <;> rfl

lemma jmul_none_left (x : JsNum) : jmul none x = none := by cases x <;> rfl

lemma jle_none_left (x : JsNum) : jle none x = false := by cases x <;> rfl

lemma jdiv_degenerate (a s : JsNum) (hs : s = none ∨ s = some 0) :
    jdiv a s = none := by
  rcases hs with rfl | rfl <;> rcases a with _ | q <;> simp [jdiv]

lemma jsub_jadd_cancel (e s : JsNum) (r : ℚ) :
    jsub (jadd e (jsub (some r) s)) (some r) = jsub e s := by
  cases e <;> cases s <;> simp [jadd, jsub] <;> ring

/-- A box with a non-finite top coordinate overlaps nothing. -/
lemma overlap_false_of_top_none (p tr : Box) (hp : p.top = none) :
    boxesOverlap p tr = false := by
  simp [boxesOverlap, hp, jle_none_left]

/-- C3: For every drop whose computed center intersects no cached row-track
box, the resolution produces no valid minimum — the empty reduction's
`Math.min()` is `Infinity`, no index — and the drop exits through an
unguarded fault (the `OutOfRange` condition) instead of completing with an
index. -/
theorem resolution_out_of_range_signals
    (st : WidgetState) (el : Box)
    (hout : ∀ j, j < st.rowsCoords.length →
      boxesOverlap (calcCenter st el).center (st.rowsCoords.getD j default) = false) :
    intersectArrayIndex (setHead (createCoordsArray st.rowsCoords)
        (calcCenter st el).center) = none ∧
    dragDropped st el = Except.error (updateIndices st (calcCenter st el).center).1 := by
  have hnone : intersectArrayIndex (setHead (createCoordsArray st.rowsCoords)
      (calcCenter st el).center) = none := by
    rw [intersectArrayIndex_probe, List.min?_eq_none_iff]
    unfold overlapPositions
    rw [List.filterMap_eq_nil_iff]
    intro t ht
    rw [List.mem_range] at ht
    rw [hout t ht]
    simp
  exact ⟨hnone, dragDropped_error_of_row_none st el hnone⟩

/-- C5: For every drop that resolves to `(targetRow, targetCol)`, the index
update sets `rowStart` to the target row and shifts `rowEnd` by the same
delta, likewise for the columns, so the spans `rowEnd - rowStart` and
`columnEnd - columnStart` are each preserved across the update. -/
theorem index_update_preserves_spans
    (st : WidgetState) (center : Box) (r c : ℕ)
    (hr : intersectArrayIndex (setHead (createCoordsArray st.rowsCoords) center) = some r)
    (hc : intersectArrayIndex (setHead (createCoordsArray st.colsCoords) center) = some c) :
    (updateIndices st center).1.index.rowStart = some (r : ℚ) ∧
    (updateIndices st center).1.index.columnStart = some (c : ℚ) ∧
    jsub (updateIndices st center).1.index.rowEnd (updateIndices st center).1.index.rowStart
      = jsub st.index.rowEnd st.index.rowStart ∧
    jsub (updateIndices st center).1.index.columnEnd
        (updateIndices st center).1.index.columnStart
      = jsub st.index.columnEnd st.index.columnStart := by
  rw [updateIndices_eq]
  simp only [hr, hc, Option.map_some']
  exact ⟨rfl, rfl, jsub_jadd_cancel _ _ _, jsub_jadd_cancel _ _ _⟩

/-- C6: The drop computes the probe center as
`horizontal = (left + right) / 2 + offset.x` and
`vertical = (bottom - top) / rowSpan * 0.5 + top + offset.y` with
`rowSpan = rowEnd - rowStart`, and builds the probe box as that point
repeated as both corners (finite inputs, non-zero row span; the source's
`* .5` is exact halving). -/
theorem drop_center_formula
    (st : WidgetState) (el : Box) (l t r b px py rs re : ℚ)
    (hl : el.left = some l) (ht : el.top = some t)
    (hr : el.right = some r) (hb : el.bottom = some b)
    (hx : st.pos.1 = some px) (hy : st.pos.2 = some py)
    (hrs : st.index.rowStart = some rs) (hre : st.index.rowEnd = some re)
    (hspan : re - rs ≠ 0) :
    calcCenter st el =
      ⟨some l, some t,
        ⟨some ((l + r) / 2 + px),
         some ((b - t) / (re - rs) * (1 / 2) + t + py),
         some ((l + r) / 2 + px),
         some ((b - t) / (re - rs) * (1 / 2) + t + py)⟩⟩ := by
  unfold calcCenter
  rw [hl, ht, hr, hb, hx, hy, hrs, hre]
  simp only [jadd, jsub, jmul, jdiv, if_neg hspan, CenterResult.mk.injEq, Box.mk.injEq,
    Option.some.injEq]
  and_intros <;> first | trivial | ring

/-- C7: For every drop resolving to `(targetRow, targetCol)`, the new drag
offset is `(element's left + previous offset.x - target column's cached
left edge, element's top + previous offset.y - target row's cached top
edge)`: the target x comes from the column cache, the target y from the
row cache. -/
theorem drop_offset_formula
    (st : WidgetState) (el : Box) (r c : ℕ) (rb cb : Box)
    (hr : intersectArrayIndex
      (setHead (createCoordsArray st.rowsCoords) (calcCenter st el).center) = some r)
    (hc : intersectArrayIndex
      (setHead (createCoordsArray st.colsCoords) (calcCenter st el).center) = some c)
    (h1r : 1 ≤ r) (hrb : st.rowsCoords[r - 1]? = some rb)
    (h1c : 1 ≤ c) (hcb : st.colsCoords[c - 1]? = some cb) :
    ∃ st', dragDropped st el = Except.ok st' ∧
      st'.pos = (jsub (jadd el.left st.pos.1) cb.left,
                 jsub (jadd el.top st.pos.2) rb.top) := by
  exact ⟨_, dragDropped_ok st el r c rb cb hr hc h1r hrb h1c hcb, rfl⟩

/-- C4 (amended): After every successful drop resolution the two start
fields are 1-based indices within the cached track counts —
`rowStart ∈ [1, N]`, `columnStart ∈ [1, M]` — while `rowEnd` and
`columnEnd` equal the new starts plus the preserved prior spans and are
not bounded by `N` / `M`. -/
theorem start_fields_in_range_after_drop
    (st : WidgetState) (el : Box) (st' : WidgetState)
    (h : dragDropped st el = Except.ok st') :
    ∃ r c : ℕ, 1 ≤ r ∧ r ≤ st.rowsCoords.length ∧ 1 ≤ c ∧ c ≤ st.colsCoords.length ∧
      st'.index.rowStart = some (r : ℚ) ∧ st'.index.columnStart = some (c : ℚ) ∧
      st'.index.rowEnd = jadd st'.index.rowStart (jsub st.index.rowEnd st.index.rowStart) ∧
      st'.index.columnEnd
        = jadd st'.index.columnStart (jsub st.index.columnEnd st.index.columnStart) := by
  rcases hrow : intersectArrayIndex
      (setHead (createCoordsArray st.rowsCoords) (calcCenter st el).center) with _ | r
  · rw [dragDropped_error_of_row_none st el hrow] at h
    cases h
  rcases hcol : intersectArrayIndex
      (setHead (createCoordsArray st.colsCoords) (calcCenter st el).center) with _ | c
  · rw [dragDropped_error_of_col_none st el hcol] at h
    cases h
  simp only [dragDropped, updateIndices, updateRowIndex, updateColIndex, hrow, hcol,
    getTrackBox] at h
  by_cases h1c : 1 ≤ c
  swap
  · simp [h1c] at h
  by_cases h1r : 1 ≤ r
  swap
  · simp [h1c, h1r] at h
  rcases hcb : st.colsCoords[c - 1]? with _ | cb
  · simp [h1c, h1r, hcb] at h
  rcases hrb : st.rowsCoords[r - 1]? with _ | rb
  · simp [h1c, h1r, hcb, hrb] at h
  simp only [h1c, h1r, hcb, hrb, if_pos, Except.ok.injEq] at h
  have hrlen : r - 1 < st.rowsCoords.length := (List.getElem?_eq_some_iff.mp hrb).1
  have hclen : c - 1 < st.colsCoords.length := (List.getElem?_eq_some_iff.mp hcb).1
  refine ⟨r, c, h1r, by omega, h1c, by omega, ?_⟩
  rw [← h]
  refine ⟨rfl, rfl, ?_, ?_⟩
  · show jadd st.index.rowEnd (jsub (some (r : ℚ)) st.index.rowStart)
      = jadd (some (r : ℚ)) (jsub st.index.rowEnd st.index.rowStart)
    cases hre : st.index.rowEnd <;> cases hrs : st.index.rowStart <;>
      simp [jadd, jsub] <;> ring
  · show jadd st.index.columnEnd (jsub (some (c : ℚ)) st.index.columnStart)
      = jadd (some (c : ℚ)) (jsub st.index.columnEnd st.index.columnStart)
    cases hce : st.index.columnEnd <;> cases hcs : st.index.columnStart <;>
      simp [jadd, jsub] <;> ring

/-- C9 (amended): For every state with `rowEnd = rowStart` (zero row span
or an identically contaminated pair), `calcCenter` divides by zero, both
vertical coordinates of the probe box are non-finite, and the drop cannot
resolve: it exits through the unguarded fault. -/
theorem zero_row_span_faults
    (st : WidgetState) (el : Box)
    (h : st.index.rowEnd = st.index.rowStart) :
    (calcCenter st el).center.top = none ∧
    (calcCenter st el).center.bottom = none ∧
    dragDropped st el = Except.error (updateIndices st (calcCenter st el).center).1 := by
  have hspan : jsub st.index.rowEnd st.index.rowStart = none ∨
      jsub st.index.rowEnd st.index.rowStart = some 0 := by
    rw [h]
    rcases st.index.rowStart with _ | q
    · exact Or.inl rfl
    · exact Or.inr (by simp [jsub])
  have hv : (calcCenter st el).center.top = none := by
    show jadd (jadd (jmul (jdiv (jsub el.bottom el.top)
      (jsub st.index.rowEnd st.index.rowStart)) (some (1/2))) el.top) st.pos.2 = none
    rw [jdiv_degenerate _ _ hspan, jmul_none_left, jadd_none_left, jadd_none_left]
  have hv' : (calcCenter st el).center.bottom = none := hv
  have hnone : intersectArrayIndex (setHead (createCoordsArray st.rowsCoords)
      (calcCenter st el).center) = none := by
    rw [intersectArrayIndex_probe, List.min?_eq_none_iff]
    unfold overlapPositions
    rw [List.filterMap_eq_nil_iff]
    intro t ht
    rw [overlap_false_of_top_none _ _ hv]
    simp
  exact ⟨hv, hv', dragDropped_error_of_row_none st el hnone⟩

/-- C10: A drop is not atomic with respect to the grid index: when the row
resolution succeeds but the column resolution fails, the drop exits
exceptionally with the grid index already carrying the new row values (and
the contaminated column fields); the pre-drop index is not restored and
`pos` is never reassigned. -/
theorem drop_not_atomic
    (st : WidgetState) (el : Box) (r : ℕ)
    (hr : intersectArrayIndex
      (setHead (createCoordsArray st.rowsCoords) (calcCenter st el).center) = some r)
    (hcol : intersectArrayIndex
      (setHead (createCoordsArray st.colsCoords) (calcCenter st el).center) = none) :
    ∃ st1, dragDropped st el = Except.error st1 ∧
      st1.index.rowStart = some (r : ℚ) ∧
      st1.index.rowEnd = jadd st.index.rowEnd (jsub (some (r : ℚ)) st.index.rowStart) ∧
      st1.index.columnStart = none ∧
      st1.pos = st.pos := by
  refine ⟨_, dragDropped_error_of_col_none st el hcol, ?_⟩
  rw [updateIndices_eq]
  simp [hr, hcol]

/-! ## Concrete evaluations on the example grid -/

lemma center_demo : calcCenter demoState demoEl = ⟨some 0, some 0, probeBox 7 12⟩ := by
  norm_num [calcCenter, demoState, demoEl, mkBox, probeBox,
    jadd_some, jsub_some, jmul_some, jdiv_some]

lemma row_demo :
    intersectArrayIndex (setHead (createCoordsArray rowTracks) (probeBox 7 12)) = some 2 := by
  decide

lemma col_demo :
    intersectArrayIndex (setHead (createCoordsArray colTracks) (probeBox 7 12)) = some 2 := by
  decide

lemma drop_demo : dragDropped demoState demoEl = Except.ok demoAfter := by
  simp only [dragDropped, updateIndices, updateRowIndex, updateColIndex, center_demo]
  simp only [demoState, row_demo, col_demo]
  norm_num [demoAfter, demoState, getTrackBox, rowTracks, colTracks, mkBox, probeBox,
    jadd_some, jsub_some]

lemma center_inverted :
    calcCenter invertedSpanState demoEl = ⟨some 0, some 0, probeBox 7 12⟩ := by
  norm_num [calcCenter, invertedSpanState, demoState, demoEl, mkBox, probeBox,
    jadd_some, jsub_some, jmul_some, jdiv_some]

lemma drop_inverted : dragDropped invertedSpanState demoEl = Except.ok invertedAfter := by
  simp only [dragDropped, updateIndices, updateRowIndex, updateColIndex, center_inverted]
  simp only [invertedSpanState, demoState, row_demo, col_demo]
  norm_num [invertedAfter, invertedSpanState, demoState, getTrackBox, rowTracks, colTracks,
    mkBox, probeBox, jadd_some, jsub_some]

lemma center_wide : calcCenter demoState wideEl = ⟨some 43, some 0, probeBox 50 12⟩ := by
  norm_num [calcCenter, demoState, wideEl, mkBox, probeBox,
    jadd_some, jsub_some, jmul_some, jdiv_some]

lemma center_outside :
    calcCenter demoState outsideEl = ⟨some 0, some 38, probeBox 7 50⟩ := by
  norm_num [calcCenter, demoState, outsideEl, mkBox, probeBox,
    jadd_some, jsub_some, jmul_some, jdiv_some]

/-! ## Counterexamples and the teardown defect -/

/-- C4 counterexample: running the spec's own end-to-end example — 3 row
tracks, prior row span 2, drop resolving to (row 2, col 2) — the successful
drop leaves `rowEnd = 4`, outside `[1, N] = [1, 3]`; the claimed invariant
fails for the end fields. -/
theorem grid_index_exceeds_bounds :
    dragDropped demoState demoEl = Except.ok demoAfter ∧
    demoState.rowsCoords.length = 3 ∧
    demoAfter.index.rowEnd = some 4 ∧
    ¬ ((4 : ℚ) ≤ 3) := by
  exact ⟨drop_demo, rfl, rfl, by norm_num⟩

/-- C9 counterexample: with an inverted row span (`rowEnd = 1 < rowStart =
2`, so `rowEnd > rowStart` fails), `calcCenter` is finite and the whole
drop resolution still succeeds — `rowEnd > rowStart` is not a necessary
precondition for drop resolution. -/
theorem negative_row_span_drop_succeeds :
    invertedSpanState.index.rowStart = some 2 ∧
    invertedSpanState.index.rowEnd = some 1 ∧
    dragDropped invertedSpanState demoEl = Except.ok invertedAfter ∧
    invertedAfter.readyToAnimation = true := by
  exact ⟨rfl, rfl, drop_inverted, rfl⟩

/-- C8: `ngOnDestroy` only disconnects the resize observation. The
self-rescheduling frame callback registration survives teardown: on the
next synthetic frame tick after destruction the callback still executes
and mutates state (`dragEnded` flips), while the resize side is indeed
dead. The claim that both registrations are released — and that no further
frame callbacks execute — fails on the code. -/
theorem frame_callback_runs_after_destroy :
    (ngOnDestroy demoState).resizeConnected = false ∧
    (ngOnDestroy demoState).frameRequested = true ∧
    resizeTick (ngOnDestroy demoState) [mkBox 0 0 1 1] = ngOnDestroy demoState ∧
    (frameTick (ngOnDestroy { demoState with readyToAnimation := true })).dragEnded = true ∧
    (ngOnDestroy { demoState with readyToAnimation := true }).dragEnded = false ∧
    (frameTick (ngOnDestroy { demoState with readyToAnimation := true })).frameRequested
      = true := by
  decide

/-! ## Witnesses -/

/-- Witness for C1 at the gapped two-track cache: the point `(5, 8)` lies
strictly inside the track at 0-based position 1 and the resolution returns
the 1-based index 2. -/
theorem resolution_returns_strict_interior_track_witness :
    ((1 : ℕ) < gappedTracks.length
      ∧ (∀ i, i < gappedTracks.length → ∀ j, j < gappedTracks.length → i ≠ j →
          boxesOverlap (gappedTracks.getD i default) (gappedTracks.getD j default) = false)
      ∧ List.Chain' (fun a b => jle a.bottom b.top = true) gappedTracks
      ∧ insideStrict 5 8 (gappedTracks.getD 1 default) = true)
    ∧ intersectArrayIndex (setHead (createCoordsArray gappedTracks) (probeBox 5 8))
        = some (1 + 1) := by
  have hchain : List.Chain' (fun a b => jle a.bottom b.top = true) gappedTracks := by
    unfold gappedTracks
    rw [List.chain'_cons]
    exact ⟨by decide, List.chain'_singleton _⟩
  exact ⟨⟨by decide, by decide, hchain, by decide⟩,
    resolution_returns_strict_interior_track gappedTracks 5 8 1
      (by decide) (by decide) hchain (by decide)⟩

/-- Witness for C2 at the example row tracks: the point `(7, 10)` lies on
the shared boundary of tracks 1 and 2 (1-based) and the resolution returns
the smaller index 1. -/
theorem resolution_boundary_tie_breaks_to_smaller_witness :
    ((0 : ℕ) + 1 < rowTracks.length
      ∧ (rowTracks.getD 0 default).bottom = some 10
      ∧ (rowTracks.getD (0 + 1) default).top = some 10
      ∧ boxesOverlap (probeBox 7 10) (rowTracks.getD 0 default) = true
      ∧ boxesOverlap (probeBox 7 10) (rowTracks.getD (0 + 1) default) = true
      ∧ (∀ j, j < rowTracks.length → j ≠ 0 → j ≠ 0 + 1 →
          boxesOverlap (probeBox 7 10) (rowTracks.getD j default) = false))
    ∧ intersectArrayIndex (setHead (createCoordsArray rowTracks) (probeBox 7 10))
        = some (0 + 1)
    ∧ intersectArrayIndex (setHead (createCoordsArray rowTracks) (probeBox 7 10))
        = (overlapPositions (probeBox 7 10) rowTracks).min? :=
  ⟨⟨by decide, by decide, by decide, by decide, by decide, by decide⟩,
    resolution_boundary_tie_breaks_to_smaller rowTracks 7 10 0
      (by decide) (by decide) (by decide) (by decide) (by decide) (by decide)⟩

/-- Witness for C3: dropping `outsideEl` from `demoState` puts the center
at `(7, 50)`, below all three row tracks; the resolution yields no minimum
and the drop faults. -/
theorem resolution_out_of_range_signals_witness :
    (∀ j, j < demoState.rowsCoords.length →
      boxesOverlap (calcCenter demoState outsideEl).center
        (demoState.rowsCoords.getD j default) = false)
    ∧ (intersectArrayIndex (setHead (createCoordsArray demoState.rowsCoords)
          (calcCenter demoState outsideEl).center) = none
      ∧ dragDropped demoState outsideEl
          = Except.error (updateIndices demoState (calcCenter demoState outsideEl).center).1) := by
  have hout : ∀ j, j < demoState.rowsCoords.length →
      boxesOverlap (calcCenter demoState outsideEl).center
        (demoState.rowsCoords.getD j default) = false := by
    simp only [center_outside]
    decide
  exact ⟨hout, resolution_out_of_range_signals demoState outsideEl hout⟩

/-- Witness for C4 (amended) at the example drop. -/
theorem start_fields_in_range_after_drop_witness :
    dragDropped demoState demoEl = Except.ok demoAfter
    ∧ ∃ r c : ℕ, 1 ≤ r ∧ r ≤ demoState.rowsCoords.length
        ∧ 1 ≤ c ∧ c ≤ demoState.colsCoords.length
        ∧ demoAfter.index.rowStart = some (r : ℚ)
        ∧ demoAfter.index.columnStart = some (c : ℚ)
        ∧ demoAfter.index.rowEnd
            = jadd demoAfter.index.rowStart
                (jsub demoState.index.rowEnd demoState.index.rowStart)
        ∧ demoAfter.index.columnEnd
            = jadd demoAfter.index.columnStart
                (jsub demoState.index.columnEnd demoState.index.columnStart) :=
  ⟨drop_demo, start_fields_in_range_after_drop demoState demoEl demoAfter drop_demo⟩

/-- Witness for C5 at the example drop resolving to (2, 2). -/
theorem index_update_preserves_spans_witness :
    (intersectArrayIndex (setHead (createCoordsArray demoState.rowsCoords)
        (probeBox 7 12)) = some 2
      ∧ intersectArrayIndex (setHead (createCoordsArray demoState.colsCoords)
          (probeBox 7 12)) = some 2)
    ∧ ((updateIndices demoState (probeBox 7 12)).1.index.rowStart = some ((2 : ℕ) : ℚ)
      ∧ (updateIndices demoState (probeBox 7 12)).1.index.columnStart = some ((2 : ℕ) : ℚ)
      ∧ jsub (updateIndices demoState (probeBox 7 12)).1.index.rowEnd
            (updateIndices demoState (probeBox 7 12)).1.index.rowStart
          = jsub demoState.index.rowEnd demoState.index.rowStart
      ∧ jsub (updateIndices demoState (probeBox 7 12)).1.index.columnEnd
            (updateIndices demoState (probeBox 7 12)).1.index.columnStart
          = jsub demoState.index.columnEnd demoState.index.columnStart) :=
  ⟨⟨by decide, by decide⟩,
    index_update_preserves_spans demoState (probeBox 7 12) 2 2 (by decide) (by decide)⟩

/-- Witness for C6 at the example state and element: the center formula
evaluates at `l = 0, t = 0, r = 14, b = 4`, offset `(0, 11)`, row span
`3 - 1 = 2`. -/
theorem drop_center_formula_witness :
    (demoEl.left = some 0 ∧ demoEl.top = some 0
      ∧ demoEl.right = some 14 ∧ demoEl.bottom = some 4
      ∧ demoState.pos.1 = some 0 ∧ demoState.pos.2 = some 11
      ∧ demoState.index.rowStart = some 1 ∧ demoState.index.rowEnd = some 3
      ∧ (3 : ℚ) - 1 ≠ 0)
    ∧ calcCenter demoState demoEl =
        ⟨some 0, some 0,
          ⟨some ((0 + 14) / 2 + 0),
           some ((4 - 0) / ((3 : ℚ) - 1) * (1 / 2) + 0 + 11),
           some ((0 + 14) / 2 + 0),
           some ((4 - 0) / ((3 : ℚ) - 1) * (1 / 2) + 0 + 11)⟩⟩ :=
  ⟨⟨rfl, rfl, rfl, rfl, rfl, rfl, rfl, rfl, by norm_num⟩,
    drop_center_formula demoState demoEl 0 0 14 4 0 11 1 3
      rfl rfl rfl rfl rfl rfl rfl rfl (by norm_num)⟩

/-- Witness for C7 at the example drop: the target column's left edge is 5
and the target row's top edge is 10, so the new offset is the snap-back
vector. -/
theorem drop_offset_formula_witness :
    (intersectArrayIndex (setHead (createCoordsArray demoState.rowsCoords)
        (calcCenter demoState demoEl).center) = some 2
      ∧ intersectArrayIndex (setHead (createCoordsArray demoState.colsCoords)
          (calcCenter demoState demoEl).center) = some 2
      ∧ (1 : ℕ) ≤ 2 ∧ demoState.rowsCoords[2 - 1]? = some (mkBox 0 10 100 20)
      ∧ (1 : ℕ) ≤ 2 ∧ demoState.colsCoords[2 - 1]? = some (mkBox 5 0 15 30))
    ∧ ∃ st', dragDropped demoState demoEl = Except.ok st'
        ∧ st'.pos = (jsub (jadd demoEl.left demoState.pos.1) (mkBox 5 0 15 30).left,
                     jsub (jadd demoEl.top demoState.pos.2) (mkBox 0 10 100 20).top) := by
  have hr : intersectArrayIndex (setHead (createCoordsArray demoState.rowsCoords)
      (calcCenter demoState demoEl).center) = some 2 := by
    simp only [center_demo]
    decide
  have hc : intersectArrayIndex (setHead (createCoordsArray demoState.colsCoords)
      (calcCenter demoState demoEl).center) = some 2 := by
    simp only [center_demo]
    decide
  exact ⟨⟨hr, hc, by decide, by decide, by decide, by decide⟩,
    drop_offset_formula demoState demoEl 2 2 (mkBox 0 10 100 20) (mkBox 5 0 15 30)
      hr hc (by decide) (by decide) (by decide) (by decide)⟩

/-- Witness for C9 (amended) at a zero-span state: the vertical probe
coordinates are non-finite and the drop faults. -/
theorem zero_row_span_faults_witness :
    zeroSpanState.index.rowEnd = zeroSpanState.index.rowStart
    ∧ ((calcCenter zeroSpanState demoEl).center.top = none
      ∧ (calcCenter zeroSpanState demoEl).center.bottom = none
      ∧ dragDropped zeroSpanState demoEl
          = Except.error
              (updateIndices zeroSpanState (calcCenter zeroSpanState demoEl).center).1) :=
  ⟨rfl, zero_row_span_faults zeroSpanState demoEl rfl⟩

/-- Witness for C10: dropping `wideEl` from `demoState` resolves row 2 but
no column; the drop faults with the row fields already rewritten (the
pre-drop `rowStart` was 1). -/
theorem drop_not_atomic_witness :
    (intersectArrayIndex (setHead (createCoordsArray demoState.rowsCoords)
        (calcCenter demoState wideEl).center) = some 2
      ∧ intersectArrayIndex (setHead (createCoordsArray demoState.colsCoords)
          (calcCenter demoState wideEl).center) = none
      ∧ demoState.index.rowStart = some 1)
    ∧ ∃ st1, dragDropped demoState wideEl = Except.error st1
        ∧ st1.index.rowStart = some ((2 : ℕ) : ℚ)
        ∧ st1.index.rowEnd
            = jadd demoState.index.rowEnd (jsub (some ((2 : ℕ) : ℚ)) demoState.index.rowStart)
        ∧ st1.index.columnStart = none
        ∧ st1.pos = demoState.pos := by
  have hr : intersectArrayIndex (setHead (createCoordsArray demoState.rowsCoords)
      (calcCenter demoState wideEl).center) = some 2 := by
    simp only [center_wide]
    decide
  have hcol : intersectArrayIndex (setHead (createCoordsArray demoState.colsCoords)
      (calcCenter demoState wideEl).center) = none := by
    simp only [center_wide]
    decide
  exact ⟨⟨hr, hcol, rfl⟩, drop_not_atomic demoState wideEl 2 hr hcol⟩
